import Mathlib

/-!
Shallow embedding of the schema-migration and URL-normalization code in
`src/db/mod.rs` of the gossip repository, together with theorems checking
the specification's claims about it.

The embedding models:
* `upgrade` (the migration driver loop, including its version-persist rule),
* the dispatch logic of `check_and_upgrade` on the result of reading
  `schema_version` from `local_settings`,
* the dispatch logic of `old_check_and_upgrade` on the result of reading the
  legacy `settings` table's "version" value, together with Rust's
  `str::parse::<usize>`,
* `normalize_urls` over an abstract database state, parameterized by the
  external URL canonicalizer (`nostr_types::RelayUrl::try_from_str`) and by
  the SQL execution of the primary-table update (whose error value the code
  inspects).
-/

namespace GossipDb

/-- Rust `str::contains`: check that `needle` occurs as a contiguous
substring of `hay`, on the underlying character lists. -/
def charsIsPfx : List Char → List Char → Bool
  | [], _ => true
  | _ :: _, [] => false
  | p :: ps, c :: cs => p == c && charsIsPfx ps cs

def charsContains (hay needle : List Char) : Bool :=
  match hay with
  | [] => needle.isEmpty
  | _ :: rest => charsIsPfx needle hay || charsContains rest needle

def strContains (hay needle : String) : Bool :=
  charsContains hay.data needle.data

/-- Model of `rusqlite::Error` as inspected by this code: the
`SqliteFailure` variant carries an extended result code and an optional
message string; every other variant of `rusqlite::Error` is collapsed into
`otherErr`, since the code only ever pattern-matches on `SqliteFailure`. -/
inductive RusqliteError where
  | sqliteFailure (code : Nat) (msg : Option String)
  | otherErr
deriving DecidableEq

/-! ## The migration driver: `upgrade` (src/db/mod.rs lines 112-139) -/

/-- Length of the `UPGRADE_SQL` array (`[&str; 31]`, lines 233-265). The
scripts themselves are opaque external resources; only their count and
1-based position matter to the driver. -/
def UPGRADE_SQL_len : Nat := 31

/-- A version-persist write, mirroring the two branches at lines 125-133:
`UPDATE settings SET value=? WHERE key='version'` (Legacy scheme) versus
`UPDATE local_settings SET schema_version=?` (New scheme). -/
inductive Persist where
  | settingsVersion (v : Nat)
  | localSettingsSchema (v : Nat)
deriving DecidableEq

/-- Observable side effects of the upgrade loop: executing the migration
batch for (1-based) version `k`, i.e. `db.execute_batch(UPGRADE_SQL[k-1])`,
and persisting a version marker. -/
inductive UpgradeEvent where
  | execBatch (k : Nat)
  | persist (p : Persist)
deriving DecidableEq

/-- The persist target chosen at lines 125-133: the legacy `settings` table
when the new version is `< 24`, the `local_settings` table otherwise. -/
def persistFor (k : Nat) : Persist :=
  if k < 24 then .settingsVersion k else .localSettingsSchema k

/-- The `while version < UPGRADE_SQL.len()` loop of `upgrade` (lines
121-134), generalized over the catalog size; returns the final value of
`version` and the ordered trace of side effects. -/
def upgradeLoop (version catalog : Nat) : Nat × List UpgradeEvent :=
  if h : version < catalog then
    let k := version + 1
    let rest := upgradeLoop k catalog
    (rest.1, .execBatch k :: .persist (persistFor k) :: rest.2)
  else (version, [])
termination_by catalog - version
decreasing_by omega

/-- Outcome of `upgrade`: normal return, or the `panic!` at lines 113-119
("Database version {} is newer than this binary ..."). -/
inductive UpgradeOutcome where
  | ok (finalVersion : Nat)
  | panicTooNew (version catalog : Nat)
deriving DecidableEq

/-- `fn upgrade(db, version)` (lines 112-139): panic if `version` exceeds
the catalog size, otherwise run the loop to the catalog size. -/
def upgrade (version : Nat) : UpgradeOutcome × List UpgradeEvent :=
  if version > UPGRADE_SQL_len then
    (.panicTooNew version UPGRADE_SQL_len, [])
  else
    let r := upgradeLoop version UPGRADE_SQL_len
    (.ok r.1, r.2)

/-- Canonical shape of the loop's trace: for each version `k` from `v + 1`
to `catalog` in ascending order, the batch execution for `k` immediately
followed by the persist of `k`. -/
def stepEvents (k : Nat) : List UpgradeEvent :=
  [.execBatch k, .persist (persistFor k)]

def migrationTrace (v catalog : Nat) : List UpgradeEvent :=
  ((List.range' (v + 1) (catalog - v)).map stepEvents).flatten

/-- The versions whose batches a trace executes, in order. -/
def scriptsOf (tr : List UpgradeEvent) : List Nat :=
  tr.filterMap fun e =>
    match e with
    | .execBatch k => some k
    | .persist _ => none

theorem migrationTrace_cons (v c : Nat) (h : v < c) :
    migrationTrace v c =
      UpgradeEvent.execBatch (v + 1) ::
        UpgradeEvent.persist (persistFor (v + 1)) :: migrationTrace (v + 1) c := by
  unfold migrationTrace
  have hc : c - v = (c - (v + 1)) + 1 := by omega
  rw [hc, List.range'_succ]
  simp [stepEvents]

theorem migrationTrace_self (v : Nat) : migrationTrace v v = [] := by
  simp [migrationTrace]

theorem upgradeLoop_eq (c : Nat) :
    ∀ n v, c - v = n → v ≤ c → upgradeLoop v c = (c, migrationTrace v c) := by
  intro n
  induction n with
  | zero =>
    intro v hn hvc
    have hv : v = c := by omega
    subst hv
    rw [upgradeLoop]
    simp [migrationTrace_self]
  | succ n ih =>
    intro v hn hvc
    have hv : v < c := by omega
    rw [upgradeLoop]
    simp only [hv, dif_pos]
    rw [ih (v + 1) (by omega) (by omega)]
    rw [migrationTrace_cons v c hv]

theorem scriptsOf_append (a b : List UpgradeEvent) :
    scriptsOf (a ++ b) = scriptsOf a ++ scriptsOf b := by
  simp [scriptsOf]

theorem scriptsOf_flatten_steps (l : List Nat) :
    scriptsOf ((l.map stepEvents).flatten) = l := by
  induction l with
  | nil => simp [scriptsOf]
  | cons k rest ih =>
    simp only [List.map_cons, List.flatten_cons, scriptsOf_append, ih]
    simp [scriptsOf, stepEvents]

theorem scriptsOf_migrationTrace (v c : Nat) :
    scriptsOf (migrationTrace v c) = List.range' (v + 1) (c - v) := by
  unfold migrationTrace
  exact scriptsOf_flatten_steps _

theorem mem_migrationTrace_persist (v c : Nat) (p : Persist) :
    UpgradeEvent.persist p ∈ migrationTrace v c ↔
      ∃ k, v < k ∧ k ≤ c ∧ v ≤ c ∧ p = persistFor k := by
  unfold migrationTrace
  simp only [List.mem_flatten, List.mem_map]
  constructor
  · rintro ⟨l, ⟨k, hk, rfl⟩, hmem⟩
    rw [List.mem_range'_1] at hk
    have hp : p = persistFor k := by
      simp only [stepEvents, List.mem_cons, List.mem_singleton] at hmem
      rcases hmem with h | h | h
      · cases h
      · exact (UpgradeEvent.persist.injEq _ _).mp h.symm |>.symm ▸ by
          cases h; rfl
      · cases h
    exact ⟨k, by omega, by omega, by omega, hp⟩
  · rintro ⟨k, hvk, hkc, hvc, rfl⟩
    refine ⟨stepEvents k, ⟨k, ?_, rfl⟩, by simp [stepEvents]⟩
    rw [List.mem_range'_1]
    omega

theorem upgrade_eq_of_le (v : Nat) (h : v ≤ UPGRADE_SQL_len) :
    upgrade v = (UpgradeOutcome.ok UPGRADE_SQL_len, migrationTrace v UPGRADE_SQL_len) := by
  unfold upgrade
  rw [if_neg (by omega : ¬ v > UPGRADE_SQL_len)]
  simp only [upgradeLoop_eq UPGRADE_SQL_len (UPGRADE_SQL_len - v) v rfl h]

/-- C1: for every starting version `v` with `0 ≤ v ≤ N` where `N` is the
length of `UPGRADE_SQL`, `upgrade` terminates with final version `N` and its
side-effect trace is exactly: for each `k` from `v + 1` to `N` in ascending
order, the batch execution of script `k` immediately followed by the persist
of version `k` (so each script runs exactly once, and version `k` is
persisted after script `k` and before script `k + 1`). -/
theorem upgrade_applies_missing_scripts_ascending (v : Nat) (h : v ≤ UPGRADE_SQL_len) :
    upgrade v = (UpgradeOutcome.ok UPGRADE_SQL_len, migrationTrace v UPGRADE_SQL_len) ∧
      scriptsOf (upgrade v).2 = List.range' (v + 1) (UPGRADE_SQL_len - v) := by
  refine ⟨upgrade_eq_of_le v h, ?_⟩
  rw [upgrade_eq_of_le v h]
  exact scriptsOf_migrationTrace v _

theorem upgrade_applies_missing_scripts_ascending_witness :
    29 ≤ UPGRADE_SQL_len ∧
      (upgrade 29 = (UpgradeOutcome.ok UPGRADE_SQL_len, migrationTrace 29 UPGRADE_SQL_len) ∧
        scriptsOf (upgrade 29).2 = List.range' 30 (UPGRADE_SQL_len - 29)) :=
  ⟨by decide, upgrade_applies_missing_scripts_ascending 29 (by decide)⟩

/-- C2: for every starting version strictly greater than the catalog size,
`upgrade` hits the distinct "Database version ... is newer than this binary"
panic and its side-effect trace is empty: no script is executed and no
version marker is written. -/
theorem upgrade_panics_when_store_newer (v : Nat) (h : UPGRADE_SQL_len < v) :
    upgrade v = (UpgradeOutcome.panicTooNew v UPGRADE_SQL_len, []) := by
  unfold upgrade
  rw [if_pos h]

theorem upgrade_panics_when_store_newer_witness :
    UPGRADE_SQL_len < 32 ∧
      upgrade 32 = (UpgradeOutcome.panicTooNew 32 UPGRADE_SQL_len, []) :=
  ⟨by decide, upgrade_panics_when_store_newer 32 (by decide)⟩

/-- C8: in every run of `upgrade`, the version marker `k` is persisted into
the legacy `settings` table exactly for the steps with `k < 24`, and into
`local_settings.schema_version` exactly for the steps with `k ≥ 24`. -/
theorem persist_targets_split_at_24 (v k : Nat) (h : v ≤ UPGRADE_SQL_len) :
    (UpgradeEvent.persist (Persist.settingsVersion k) ∈ (upgrade v).2 ↔
      v < k ∧ k ≤ UPGRADE_SQL_len ∧ k < 24) ∧
    (UpgradeEvent.persist (Persist.localSettingsSchema k) ∈ (upgrade v).2 ↔
      v < k ∧ k ≤ UPGRADE_SQL_len ∧ 24 ≤ k) := by
  rw [upgrade_eq_of_le v h]
  dsimp only
  constructor
  · rw [mem_migrationTrace_persist]
    constructor
    · rintro ⟨j, hvj, hjc, hvc, hp⟩
      unfold persistFor at hp
      split at hp
      · injection hp with hkj
        subst hkj
        exact ⟨hvj, hjc, by omega⟩
      · simp at hp
    · rintro ⟨hvk, hkc, hk24⟩
      refine ⟨k, hvk, hkc, h, ?_⟩
      unfold persistFor
      rw [if_pos hk24]
  · rw [mem_migrationTrace_persist]
    constructor
    · rintro ⟨j, hvj, hjc, hvc, hp⟩
      unfold persistFor at hp
      split at hp
      · simp at hp
      · injection hp with hkj
        subst hkj
        exact ⟨hvj, hjc, by omega⟩
    · rintro ⟨hvk, hkc, hk24⟩
      refine ⟨k, hvk, hkc, h, ?_⟩
      unfold persistFor
      rw [if_neg (by omega)]

theorem persist_targets_split_at_24_witness :
    0 ≤ UPGRADE_SQL_len ∧
      ((UpgradeEvent.persist (Persist.settingsVersion 24) ∈ (upgrade 0).2 ↔
          0 < 24 ∧ 24 ≤ UPGRADE_SQL_len ∧ 24 < 24) ∧
        (UpgradeEvent.persist (Persist.localSettingsSchema 24) ∈ (upgrade 0).2 ↔
          0 < 24 ∧ 24 ≤ UPGRADE_SQL_len ∧ 24 ≤ 24)) :=
  ⟨by decide, persist_targets_split_at_24 0 24 (by decide)⟩

/-! ## `check_and_upgrade` (src/db/mod.rs lines 64-89) -/

/-- What `check_and_upgrade` does with the result of
`SELECT schema_version FROM local_settings LIMIT 1`.
`upgradeFrom v` means it calls `upgrade(db, v)`; `legacyFallback` means it
calls `old_check_and_upgrade(db)`; `propagate e` means `return Err(e.into())`;
`skipUpgrade e` means the error is discarded and control falls through to
`normalize_urls()` without any upgrade. -/
inductive CheckDispatch where
  | upgradeFrom (v : Nat)
  | legacyFallback
  | propagate (e : RusqliteError)
  | skipUpgrade (e : RusqliteError)
deriving DecidableEq

/-- The dispatch of `check_and_upgrade` (lines 67-85), faithful to the Rust
control flow: the `else` at line 81 belongs to the `if let` at line 76, so a
`SqliteFailure` carrying a message that does not contain "no such table"
falls out of both branches and is silently dropped. -/
def check_and_upgrade_dispatch (r : Except RusqliteError Nat) : CheckDispatch :=
  match r with
  | .ok version => .upgradeFrom version
  | .error e =>
    match e with
    | .sqliteFailure c (some s) =>
      if strContains s "no such table" then
        .legacyFallback
      else
        .skipUpgrade (.sqliteFailure c (some s))
    | .sqliteFailure c none => .propagate (.sqliteFailure c none)
    | .otherErr => .propagate .otherErr

/-- C3 (code bug): a failure of the `schema_version` read that is a
`SqliteFailure` with a message not containing "no such table" — here
"database is locked" — is neither a legacy fallback nor propagated to the
caller: it is silently swallowed and control proceeds to `normalize_urls`,
contradicting the claim that every non-missing-table failure of this read
propagates unchanged. -/
theorem check_dispatch_swallows_unclassified_failure :
    check_and_upgrade_dispatch
        (Except.error (RusqliteError.sqliteFailure 5 (some "database is locked"))) =
      CheckDispatch.skipUpgrade (RusqliteError.sqliteFailure 5 (some "database is locked")) ∧
      strContains "database is locked" "no such table" = false := by
  constructor
  · rfl
  · rfl

/-! ## `old_check_and_upgrade` (src/db/mod.rs lines 91-110) -/

/-- Rust `str::parse::<usize>` on the digits after the optional sign:
fold left over decimal digits, failing on any non-digit. -/
def parseDigits (cs : List Char) : Option Nat :=
  cs.foldl
    (fun acc c =>
      match acc with
      | none => none
      | some n => if c.isDigit then some (n * 10 + (c.toNat - 48)) else none)
    (some 0)

/-- Model of Rust `str::parse::<usize>()`: an optional leading `+`, then one
or more decimal digits. (Overflow past `usize::MAX` is not modelled; the
inputs relevant to the claims are tiny.) -/
def parse_usize (s : String) : Option Nat :=
  match s.data with
  | [] => none
  | '+' :: rest => if rest.isEmpty then none else parseDigits rest
  | cs => parseDigits cs

/-- Modelled from the spec: the initial value of the process-wide
`GLOBALS.first_run` flag (its declaration lives in `src/globals.rs`, which is
not part of the given sources). The spec treats first-run as a signal that is
raised only by the detection cases that set it, so the flag starts false. -/
def first_run_initial : Bool := false

/-- Result of `old_check_and_upgrade` as a function of the legacy read:
`proceed fr v` means the `GLOBALS.first_run` flag ends up as `fr` and
`upgrade(db, v)` is called; `panicked raw` is the `unwrap()` panic at line 98
when the stored value `raw` does not parse as an integer. -/
inductive LegacyOutcome where
  | proceed (firstRun : Bool) (startVersion : Nat)
  | panicked (raw : String)
deriving DecidableEq

/-- The dispatch of `old_check_and_upgrade` (lines 92-109) on the result of
`SELECT value FROM settings WHERE key='version'`: on a readable value,
`v.parse::<usize>().unwrap()` (panicking if parsing fails), then
`first_run` is stored true iff the parsed version is `< 2`; on any read
error whatsoever, `first_run` is stored true and `upgrade(db, 0)` runs. -/
def old_check_and_upgrade_dispatch (r : Except RusqliteError String) : LegacyOutcome :=
  match r with
  | .ok v =>
    match parse_usize v with
    | some version =>
      .proceed (if version < 2 then true else first_run_initial) version
    | none => .panicked v
  | .error _ => .proceed true 0

/-- C4 counterexample: a present legacy "version" value that does not parse
("abc") makes `old_check_and_upgrade` panic at the `unwrap()`; it does not
proceed from version 0 as the claim states. -/
theorem legacy_unparseable_version_cex :
    old_check_and_upgrade_dispatch (Except.ok "abc") = LegacyOutcome.panicked "abc" ∧
      old_check_and_upgrade_dispatch (Except.ok "abc") ≠ LegacyOutcome.proceed true 0 ∧
      old_check_and_upgrade_dispatch (Except.ok "abc") ≠ LegacyOutcome.proceed false 0 := by
  refine ⟨rfl, ?_, ?_⟩ <;> decide

/-- C4 amended: a legacy "version" value that is present but does not parse
as an integer causes a panic (the `unwrap()` at line 98) — a crash, not a
handled version-0 outcome; version 0 is used only when the legacy read
itself returns an error. -/
theorem legacy_unparseable_version_panics (s : String) (h : parse_usize s = none) :
    old_check_and_upgrade_dispatch (Except.ok s) = LegacyOutcome.panicked s := by
  simp only [old_check_and_upgrade_dispatch, h]

theorem legacy_unparseable_version_panics_witness :
    parse_usize "abc" = none ∧
      old_check_and_upgrade_dispatch (Except.ok "abc") = LegacyOutcome.panicked "abc" :=
  ⟨by decide, legacy_unparseable_version_panics "abc" (by decide)⟩

/-- C9 counterexample: a store whose legacy "version" row holds "1" — a row
that parses, so the store has been initialized by a previous binary — is
still reported with first-run = true, because the code raises the flag for
every parsed version `< 2`; so first-run is not raised exactly in the
never-initialized cases, and a parsing row does not always give
first-run = false. -/
theorem legacy_first_run_low_version_cex :
    old_check_and_upgrade_dispatch (Except.ok "1") = LegacyOutcome.proceed true 1 ∧
      old_check_and_upgrade_dispatch (Except.ok "1") ≠ LegacyOutcome.proceed false 1 := by
  exact ⟨rfl, by decide⟩

/-- C9 amended: a legacy "version" row parsing to an integer `v` reports
starting version `v` with first-run = (`v < 2`) — in particular "5" gives
starting version 5 and first-run = false — while any failing legacy read
(no table, no row) reports starting version 0 with first-run = true. -/
theorem legacy_first_run_rule (s : String) (v : Nat) (h : parse_usize s = some v)
    (e : RusqliteError) :
    old_check_and_upgrade_dispatch (Except.ok s) = LegacyOutcome.proceed (decide (v < 2)) v ∧
      old_check_and_upgrade_dispatch (Except.error e) = LegacyOutcome.proceed true 0 := by
  constructor
  · simp only [old_check_and_upgrade_dispatch, h, first_run_initial]
    by_cases hv : v < 2
    · simp [hv]
    · simp [hv]
  · rfl

theorem legacy_first_run_rule_witness :
    parse_usize "5" = some 5 ∧
      (old_check_and_upgrade_dispatch (Except.ok "5") = LegacyOutcome.proceed false 5 ∧
        old_check_and_upgrade_dispatch (Except.error RusqliteError.otherErr) =
          LegacyOutcome.proceed true 0) :=
  ⟨by decide, legacy_first_run_rule "5" 5 (by decide) RusqliteError.otherErr⟩

/-- C10: every failure of the legacy "version" read — regardless of which
error it is — is handled identically: the first-run flag is raised and
migration proceeds from starting version 0; the error value is never
propagated (the `Err` arm of `old_check_and_upgrade` ignores it entirely). -/
theorem legacy_read_failure_uniform (e : RusqliteError) :
    old_check_and_upgrade_dispatch (Except.error e) = LegacyOutcome.proceed true 0 := rfl

/-! ## `normalize_urls` (src/db/mod.rs lines 150-231) -/

/-- Abstract state of the tables `normalize_urls` touches: the
`urls_are_normalized` flag of the single `local_settings` row, the `url`
key column of `relay`, the `relay` reference column of `person_relay` and of
`event_relay` (one entry per row), and the session's `foreign_keys` pragma. -/
structure DbState where
  urls_are_normalized : Bool
  relay : List String
  person_relay : List String
  event_relay : List String
  foreign_keys : Bool
deriving DecidableEq

/-- The SQL execution capability whose error value the code inspects:
running `UPDATE relay SET url=?1 WHERE url=?2` against the relay column,
given the new and the old value. The pass is parameterized over it so that
the code's classification of its failures can be examined for arbitrary
backend errors. -/
structure SqlEnv where
  updateRelayUrl : List String → String → String → Except RusqliteError (List String)

/-- SQLite's actual behavior for that UPDATE on a column with a uniqueness
constraint: if a different row already holds the new value while the old
value is present, fail with a "UNIQUE constraint failed" `SqliteFailure`;
otherwise rewrite every occurrence of the old value to the new one. -/
def idealEnv : SqlEnv where
  updateRelayUrl relay new old :=
    if old ∈ relay ∧ new ∈ relay ∧ old ≠ new then
      .error (.sqliteFailure 19 (some "UNIQUE constraint failed: relay.url"))
    else
      .ok (relay.map fun u => if u = old then new else u)

/-- One iteration of the `for urlkey in all_rows.iter()` loop (lines
174-223), for the snapshotted value `urlkey`, given the canonicalizer
`canon` (modelling `nostr_types::RelayUrl::try_from_str`). Faithful to the
Rust control flow of lines 184-196: a failing primary update whose error is
a `SqliteFailure` with a message containing "constraint failed" is resolved
by deleting the current row; a `SqliteFailure` whose message does not
contain it falls out of both branches and is silently ignored (the `else`
at line 193 belongs to the `if let` at line 185); any other error returns.
In the first two cases the dependent updates at lines 198-204 still run. -/
def processUrl (canon : String → Option String) (env : SqlEnv) (st : DbState)
    (urlkey : String) : Except RusqliteError DbState :=
  match canon urlkey with
  | some urlstr =>
    if urlkey ≠ urlstr then
      match
        (match env.updateRelayUrl st.relay urlstr urlkey with
          | .ok r => Except.ok { st with relay := r }
          | .error e =>
            match e with
            | .sqliteFailure _c (some s) =>
              if strContains s "constraint failed" then
                Except.ok { st with relay := st.relay.filter fun u => u ≠ urlkey }
              else
                Except.ok st
            | .sqliteFailure c none =>
              Except.error (RusqliteError.sqliteFailure c none)
            | .otherErr => Except.error RusqliteError.otherErr)
      with
      | .ok st1 =>
        Except.ok { st1 with
          person_relay := st1.person_relay.map fun r => if r = urlkey then urlstr else r,
          event_relay := st1.event_relay.map fun r => if r = urlkey then urlstr else r }
      | .error e => Except.error e
    else
      Except.ok st
  | none =>
    Except.ok { st with
      relay := st.relay.filter fun u => u ≠ urlkey,
      person_relay := st.person_relay.filter fun r => r ≠ urlkey,
      event_relay := st.event_relay.filter fun r => r ≠ urlkey }

/-- The loop over the snapshot, threading the state; on the first error the
pass stops with the state reached so far (the `?` operator at lines 191,
194, 200, 203 returns out of `normalize_urls`). -/
def normalizeLoop (canon : String → Option String) (env : SqlEnv) :
    List String → DbState → DbState × Option RusqliteError
  | [], st => (st, none)
  | u :: rest, st =>
    match processUrl canon env st u with
    | .ok st1 => normalizeLoop canon env rest st1
    | .error e => (st, some e)

/-- `fn normalize_urls()` (lines 150-231): return at once if the
`urls_are_normalized` flag is set; otherwise turn the `foreign_keys` pragma
off, snapshot the relay url column, run the loop over the snapshot, and set
the flag only after the whole loop has succeeded. -/
def normalize_urls (canon : String → Option String) (env : SqlEnv) (st : DbState) :
    DbState × Option RusqliteError :=
  if st.urls_are_normalized then
    (st, none)
  else
    match normalizeLoop canon env st.relay { st with foreign_keys := false } with
    | (st1, none) => ({ st1 with urls_are_normalized := true }, none)
    | (st1, some e) => (st1, some e)

theorem processUrl_flag (canon : String → Option String) (env : SqlEnv)
    (st : DbState) (u : String) (st1 : DbState)
    (h : processUrl canon env st u = Except.ok st1) :
    st1.urls_are_normalized = st.urls_are_normalized ∧
      st1.foreign_keys = st.foreign_keys := by
  unfold processUrl at h
  split at h
  · split at h
    · split at h
      · rename_i st2 heq
        split at heq
        · injection heq with h2
          injection h with h1
          subst h1 h2
          exact ⟨rfl, rfl⟩
        · split at heq
          · split at heq
            · injection heq with h2
              injection h with h1
              subst h1 h2
              exact ⟨rfl, rfl⟩
            · injection heq with h2
              injection h with h1
              subst h1 h2
              exact ⟨rfl, rfl⟩
          · cases heq
          · cases heq
      · cases h
    · injection h with h1
      subst h1
      exact ⟨rfl, rfl⟩
  · injection h with h1
    subst h1
    exact ⟨rfl, rfl⟩

theorem normalizeLoop_flag (canon : String → Option String) (env : SqlEnv) :
    ∀ (l : List String) (st st1 : DbState) (r : Option RusqliteError),
      normalizeLoop canon env l st = (st1, r) →
      st1.urls_are_normalized = st.urls_are_normalized := by
  intro l
  induction l with
  | nil =>
    intro st st1 r h
    injection h with h1 _
    subst h1
    rfl
  | cons u rest ih =>
    intro st st1 r h
    unfold normalizeLoop at h
    split at h
    · rename_i st2 heq
      have := processUrl_flag canon env st u st2 heq
      rw [ih st2 st1 r h, this.1]
    · injection h with h1 _
      subst h1
      rfl

/-- C6: a snapshotted value that fails to parse is resolved by deleting the
`relay` row keyed by that exact value and every `person_relay` and
`event_relay` row whose reference column equals that exact value, and the
iteration returns successfully (the parse failure is only logged, never
surfaced as an error). -/
theorem parse_failure_deletes_by_value (canon : String → Option String)
    (env : SqlEnv) (st : DbState) (u : String) (h : canon u = none) :
    processUrl canon env st u =
      Except.ok { st with
        relay := st.relay.filter fun x => x ≠ u,
        person_relay := st.person_relay.filter fun x => x ≠ u,
        event_relay := st.event_relay.filter fun x => x ≠ u } := by
  simp only [processUrl, h]

theorem parse_failure_deletes_by_value_witness :
    (fun (_ : String) => (none : Option String)) "not-a-url" = none ∧
      processUrl (fun _ => none) idealEnv
          ⟨false, ["not-a-url", "wss://b/"], ["not-a-url"], ["not-a-url", "x"], true⟩
          "not-a-url" =
        Except.ok ⟨false, ["wss://b/"], [], ["x"], true⟩ :=
  ⟨rfl,
    by
      have h := parse_failure_deletes_by_value (fun _ => none) idealEnv
        ⟨false, ["not-a-url", "wss://b/"], ["not-a-url"], ["not-a-url", "x"], true⟩
        "not-a-url" rfl
      exact h⟩

/-- C5 (code bug): when the primary-table update fails with a
`SqliteFailure` whose message does not contain "constraint failed" — here
"disk I/O error" — the iteration neither deletes anything nor aborts: the
error is silently ignored, the dependent tables are still rewritten to the
canonical value, and the whole pass completes and sets the flag,
contradicting the claim that a non-uniqueness update failure aborts the
pass with an error. The last conjunct records the genuinely recoverable
path the claim describes: under the ideal SQLite semantics a real
uniqueness conflict deletes the current row and still updates both
dependent tables. -/
theorem relay_update_unclassified_error_swallowed :
    processUrl (fun _ => some "wss://x/")
        ⟨fun _ _ _ => Except.error (RusqliteError.sqliteFailure 10 (some "disk I/O error"))⟩
        ⟨false, ["wss://X"], ["wss://X"], [], false⟩ "wss://X" =
      Except.ok ⟨false, ["wss://X"], ["wss://x/"], [], false⟩ ∧
      normalize_urls (fun _ => some "wss://x/")
          ⟨fun _ _ _ => Except.error (RusqliteError.sqliteFailure 10 (some "disk I/O error"))⟩
          ⟨false, ["wss://X"], ["wss://X"], [], false⟩ =
        (⟨true, ["wss://X"], ["wss://x/"], [], false⟩, none) ∧
      processUrl (fun _ => some "wss://x/") idealEnv
          ⟨false, ["wss://X", "wss://x/"], ["wss://X"], ["wss://x/"], false⟩ "wss://X" =
        Except.ok ⟨false, ["wss://x/"], ["wss://x/"], ["wss://x/"], false⟩ := by
  exact ⟨rfl, rfl, rfl⟩

theorem normalize_urls_flag_after_success (canon : String → Option String)
    (env : SqlEnv) (st st1 : DbState)
    (h : normalize_urls canon env st = (st1, none)) :
    st1.urls_are_normalized = true := by
  unfold normalize_urls at h
  by_cases hflag : st.urls_are_normalized
  · rw [if_pos hflag] at h
    injection h with h1 _
    subst h1
    exact hflag
  · rw [if_neg hflag] at h
    split at h
    · injection h with h1 _
      subst h1
      rfl
    · injection h with _ h2
      cases h2

/-- C7: the pass is idempotent through its persisted guard. If the flag is
already set, `normalize_urls` is a pure flag check returning the state
unchanged; if the pass stops on an error, the flag is left exactly as it
was (so still false); if the pass returns without error, the flag is set;
and a second call after any successful call returns its state unchanged. -/
theorem normalize_urls_guarded_idempotent (canon : String → Option String)
    (env : SqlEnv) (st : DbState) :
    (st.urls_are_normalized = true → normalize_urls canon env st = (st, none)) ∧
      (∀ st1 e, normalize_urls canon env st = (st1, some e) →
        st1.urls_are_normalized = st.urls_are_normalized) ∧
      (∀ st1, normalize_urls canon env st = (st1, none) →
        st1.urls_are_normalized = true) ∧
      (∀ st1, normalize_urls canon env st = (st1, none) →
        normalize_urls canon env st1 = (st1, none)) := by
  have hguard : ∀ s : DbState, s.urls_are_normalized = true →
      normalize_urls canon env s = (s, none) := by
    intro s hs
    unfold normalize_urls
    rw [if_pos hs]
  refine ⟨hguard st, ?_, normalize_urls_flag_after_success canon env st,
    fun st1 h => hguard st1 (normalize_urls_flag_after_success canon env st st1 h)⟩
  intro st1 e h
  unfold normalize_urls at h
  by_cases hflag : st.urls_are_normalized
  · rw [if_pos hflag] at h
    injection h with _ h2
    cases h2
  · rw [if_neg hflag] at h
    split at h
    · injection h with _ h2
      cases h2
    · rename_i st2 e2 heq
      injection h with h1 _
      subst h1
      have := normalizeLoop_flag canon env st.relay _ _ _ heq
      simpa using this

theorem normalize_urls_guarded_idempotent_witness :
    (⟨true, ["wss://a/"], [], [], true⟩ : DbState).urls_are_normalized = true ∧
      normalize_urls (fun s => some s) idealEnv ⟨true, ["wss://a/"], [], [], true⟩ =
        (⟨true, ["wss://a/"], [], [], true⟩, none) :=
  ⟨rfl, (normalize_urls_guarded_idempotent (fun s => some s) idealEnv _).1 rfl⟩

end GossipDb
